import Mathlib

/-
Verification development for the sparv-sbx-metadata repository.

The definitions below are a shallow embedding of the Python sources under
src/sbx_metadata/: pure functions become Lean functions, logger warnings and
errors become explicit result components, and Python exceptions become the
error side of `Except`. Every definition's doc comment names the source
function and lines it embeds.
-/

namespace SbxMeta

/-! ## String helpers (Python `str.startswith`, `in`, `strip`, `int(...)`) -/

/-- True when the second character list begins with the first (the needle). -/
def charsBeginWith : List Char → List Char → Bool
  | [], _ => true
  | _ :: _, [] => false
  | c :: cs, d :: ds => c == d && charsBeginWith cs ds

/-- True when the needle occurs as a contiguous run inside the haystack
(Python `needle in hay` on strings). -/
def charsHaveSub (needle : List Char) : List Char → Bool
  | [] => charsBeginWith needle []
  | c :: rest => charsBeginWith needle (c :: rest) || charsHaveSub needle rest

/-- Python `s.startswith(pre)`. -/
def strStartsWith (s pre : String) : Bool := charsBeginWith pre.data s.data

/-- Python `needle in hay` for strings. -/
def strContainsSub (hay needle : String) : Bool := charsHaveSub needle.data hay.data

/-- Whitespace test used by the model of Python `str.strip()`. -/
def isSpaceChar (c : Char) : Bool :=
  c == ' ' || c == '\n' || c == '\t' || c == '\r'

/-- Drop leading whitespace characters. -/
def dropLeadingSpaces : List Char → List Char
  | [] => []
  | c :: cs => if isSpaceChar c then dropLeadingSpaces cs else c :: cs

/-- Python `s.strip()` (restricted to space, tab, newline, carriage return). -/
def strStrip (s : String) : String :=
  String.mk ((dropLeadingSpaces (dropLeadingSpaces s.data.reverse).reverse))

/-- Value of a decimal digit character, `none` for a non-digit. -/
def digitVal (c : Char) : Option Nat :=
  if 48 ≤ c.toNat && c.toNat ≤ 57 then some (c.toNat - 48) else none

/-- Accumulate decimal digits; `none` as soon as a non-digit appears. -/
def digitsToNatAux : List Char → Nat → Option Nat
  | [], acc => some acc
  | c :: cs, acc =>
    match digitVal c with
    | some d => digitsToNatAux cs (10 * acc + d)
    | none => none

/-- Parse a non-empty all-digit character list to a natural number. -/
def digitsToNat : List Char → Option Nat
  | [] => none
  | c :: cs => digitsToNatAux (c :: cs) 0

/-- Model of Python `int(s)` for a string: optional sign followed by one or
more decimal digits (surrounding whitespace and underscores are not
modeled; the counter files this program parses contain bare digit runs). -/
def pyIntParse (s : String) : Option Int :=
  match s.data with
  | '-' :: rest => (digitsToNat rest).map (fun n => -(n : Int))
  | '+' :: rest => (digitsToNat rest).map (fun n => (n : Int))
  | cs => (digitsToNat cs).map (fun n => (n : Int))

/-! ## Python exceptions and values -/

/-- The Python exceptions the embedded code can raise. `typeErr` carries the
function name, the number of positional parameters its `def` requires and
the number of arguments the call supplied; `configErr` models sparv's
`SparvErrorMessage` (a user-facing configuration error). -/
inductive PyErr where
  | typeErr (fn : String) (expected given : Nat)
  | attrErr (moduleName attrName : String)
  | keyErr (k : String)
  | valueErr (s : String)
  | indexErr
  | configErr (msg : String)
deriving DecidableEq, Repr

/-- Contact affiliation record (`metadata_utils.py:19`). -/
structure Affiliation where
  organization : String
  email : String
deriving DecidableEq, Repr

/-- Contact record (`metadata_utils.py:16-20`). -/
structure ContactRecord where
  name : String
  email : String
  affiliation : Affiliation
deriving DecidableEq, Repr

/-- Python values appearing in the metadata documents this program
manipulates: strings, booleans, integers, lists of strings, and the one
structured contact record. -/
inductive PyVal where
  | vstr (s : String)
  | vbool (b : Bool)
  | vint (i : Int)
  | vstrlist (l : List String)
  | vcontact (c : ContactRecord)
deriving DecidableEq, Repr

/-- Python truthiness of a value. -/
def pyTruthy : PyVal → Bool
  | .vstr s => s ≠ ""
  | .vbool b => b
  | .vint i => i ≠ 0
  | .vstrlist l => !l.isEmpty
  | .vcontact _ => true

/-- Truthiness of `d.get(k)`-style optional values (`None` is falsy). -/
def pyTruthyOpt : Option PyVal → Bool
  | some v => pyTruthy v
  | none => false

/-- A Python dict with string keys, in insertion order. -/
abbrev PyDict := List (String × PyVal)

/-- `d.get(k)` / `d[k]` lookup. -/
def dictGet (d : PyDict) (k : String) : Option PyVal :=
  (d.find? (fun p => p.1 == k)).map (fun p => p.2)

/-- Remove a key from a dict. -/
def dictRemove (d : PyDict) (k : String) : PyDict :=
  d.filter (fun p => p.1 != k)

/-- `d[k] = v`: replace in place when the key exists, else append
(Python dicts preserve insertion order). -/
def dictSet (d : PyDict) (k : String) (v : PyVal) : PyDict :=
  if (d.find? (fun p => p.1 == k)).isSome then
    d.map (fun p => if p.1 == k then (k, v) else p)
  else d ++ [(k, v)]

/-- `base.update(upd)`: apply each entry of `upd` to `base` in order. -/
def dictUpdate (base upd : PyDict) : PyDict :=
  upd.foldl (fun acc kv => dictSet acc kv.1 kv.2) base

/-- `d.pop(k, None)`: the removed value (if any) and the remaining dict. -/
def dictPop (d : PyDict) (k : String) : Option PyVal × PyDict :=
  (dictGet d k, dictRemove d k)

/-! ## metadata_utils.py — constants and the field-derivation library -/

/-- `metadata_utils.py:7`. -/
def KORP_URL : String := "https://spraakbanken.gu.se/korp"

/-- `metadata_utils.py:9`. -/
def MENINGSMANGDER_URL : String := "https://spraakbanken.gu.se/resurser/meningsmangder"

/-- `metadata_utils.py:10`. -/
def STATS_URL : String := "https://svn.spraakbanken.gu.se/sb-arkiv/pub/frekvens"

/-- `metadata_utils.py:12`. -/
def STANDARD_LICENSE : String := "CC-BY-4.0"

/-- `metadata_utils.py:14`. -/
def DEFAULT_CODE_LICENSE : String := "MIT"

/-- `metadata_utils.py:16-20`. -/
def SBX_DEFAULT_CONTACT : ContactRecord :=
  { name := "Markus Forsberg"
    email := "sb-info@svenska.gu.se"
    affiliation := { organization := "Språkbanken Text", email := "sb-info@svenska.gu.se" } }

/-- The download item built by `make_standard_xml_export`
(`metadata_utils.py:38-47`); `scramble_level` is `none` when the key is
absent from the dict. -/
structure XmlExportItem where
  url : String
  itemType : String
  format : String
  scrambled : Bool
  description : String
  license : String
  scramble_level : Option String
deriving DecidableEq, Repr

/-- Truthiness of an optional string (Python `if scramble_on:` where the
value is `str | None`). -/
def pyTruthyStrOpt : Option String → Bool
  | some s => s ≠ ""
  | none => false

/-- `metadata_utils.make_standard_xml_export` (`metadata_utils.py:25-48`):
returns `none` when `scrambled` is `None`, otherwise the fixed-template
download item; the `scramble_level` key is only set when `scramble_on` is
truthy. -/
def make_standard_xml_export (corpus_id : String) (scrambled : Option Bool)
    (scramble_on : Option String) : Option XmlExportItem :=
  match scrambled with
  | none => none
  | some sc =>
    some { url := MENINGSMANGDER_URL ++ "/" ++ corpus_id ++ ".xml.bz2"
           itemType := "corpus"
           format := "XML"
           scrambled := sc
           description := ""
           license := STANDARD_LICENSE
           scramble_level := if pyTruthyStrOpt scramble_on then scramble_on else none }

/-- The download item built by `make_standard_stats_export`
(`metadata_utils.py:74-80`). -/
structure StatsExportItem where
  url : String
  itemType : String
  format : String
  description : String
  license : String
deriving DecidableEq, Repr

/-- The two non-fatal warnings `make_standard_stats_export` can log
(`metadata_utils.py:63-72`). -/
inductive StatsWarning where
  | enabledNoInstallation
  | installationDisabled
deriving DecidableEq, Repr

/-- Truthiness of `stats_export : bool | None` (`if stats_export`). -/
def pyTruthyBoolOpt (o : Option Bool) : Bool := o == some true

/-- Truthiness of `installations and any(i.startswith("stats_export:") for i in
installations)` (`metadata_utils.py:62`): `None` and the empty list are
falsy, otherwise the `any` decides. -/
def statsInstallationSelected (installations : Option (List String)) : Bool :=
  match installations with
  | none => false
  | some l => l.any (fun i => strStartsWith i "stats_export:")

/-- `metadata_utils.make_standard_stats_export` (`metadata_utils.py:51-81`):
logs a warning on a mismatch between the enable flag and the selected
installations (non-fatal, modeled as the first component), and returns an
item exactly when `stats_export or stats_installation` is truthy. -/
def make_standard_stats_export (corpus_id : String) (stats_export : Option Bool)
    (installations : Option (List String)) : List StatsWarning × Option StatsExportItem :=
  let stats_installation := statsInstallationSelected installations
  let warnings :=
    if pyTruthyBoolOpt stats_export && !stats_installation then
      [StatsWarning.enabledNoInstallation]
    else if stats_export == some false && stats_installation then
      [StatsWarning.installationDisabled]
    else []
  let item :=
    if pyTruthyBoolOpt stats_export || stats_installation then
      some { url := STATS_URL ++ "/stats_" ++ corpus_id ++ ".csv.zip"
             itemType := "token frequencies"
             format := "CSV"
             description := ""
             license := STANDARD_LICENSE }
    else none
  (warnings, item)

/-- One entry of the `korp_modes` list: a dict whose `"name"` key may be
absent (`mode.get("name")`). -/
structure KorpMode where
  name : Option String
deriving DecidableEq, Repr

/-- The interface item built by `make_korp` (`metadata_utils.py:100-112`);
`scrambled` and `scramble_level` are `none` when the keys are absent. -/
structure KorpItem where
  license : String
  scrambled : Option Bool
  scramble_level : Option String
  url : String
deriving DecidableEq, Repr

/-- Python string formatting of `korp_modes[0].get("name")` inside an
f-string: `None` renders as `"None"`. -/
def pyStrOfNameOpt : Option String → String
  | some s => s
  | none => "None"

/-- `metadata_utils.make_korp` (`metadata_utils.py:84-113`): `none` when
`korp` is falsy; otherwise the URL uses the distinguished mode named
`"default"` when one occurs anywhere in `korp_modes`, and falls back on
`korp_modes[0]` (raising IndexError on an empty list) otherwise. -/
def make_korp (korp : Bool) (corpus_id : String) (korp_modes : List KorpMode)
    (scrambled : Option Bool) (scramble_on : Option String) :
    Except PyErr (Option KorpItem) :=
  if korp then
    let scramble_level := if pyTruthyStrOpt scramble_on then scramble_on else none
    match korp_modes.find? (fun m => m.name == some "default") with
    | some _ =>
      Except.ok (some { license := STANDARD_LICENSE, scrambled := scrambled
                        scramble_level := scramble_level
                        url := KORP_URL ++ "/#?corpus=" ++ corpus_id })
    | none =>
      match korp_modes with
      | [] => Except.error PyErr.indexErr
      | m0 :: _ =>
        Except.ok (some { license := STANDARD_LICENSE, scrambled := scrambled
                          scramble_level := scramble_level
                          url := KORP_URL ++ "/?mode=" ++ pyStrOfNameOpt m0.name
                                   ++ "#?corpus=" ++ corpus_id })
  else Except.ok none

/-! ## The module surface of metadata_utils and Python call semantics

The three corpus exporters call into `metadata_utils` with argument lists
that do not match the signatures above. The embedding below records the
module's defined function names and their positional-parameter counts, and
models a Python positional call: an undefined attribute raises
AttributeError at the lookup, and an argument count different from the
parameter count (none of these functions has defaults) raises TypeError
before the function body runs. -/

/-- The functions defined by `metadata_utils.py` (lines 25, 51, 84);
`make_metashare` is not among them. -/
def metadataUtilsFunctionNames : List String :=
  ["make_standard_xml_export", "make_standard_stats_export", "make_korp"]

/-- Positional parameter count of each `metadata_utils` function:
`make_standard_xml_export(corpus_id, scrambled, scramble_on)` and
`make_standard_stats_export(corpus_id, stats_export, installations)` take
three, `make_korp(korp, corpus_id, korp_modes, scrambled, scramble_on)`
takes five. -/
def paramCount : String → Nat
  | "make_standard_xml_export" => 3
  | "make_standard_stats_export" => 3
  | "make_korp" => 5
  | _ => 0

/-- A positional call `metadata_utils.fn(...)` with `given` arguments:
AttributeError when `fn` is not defined by the module, TypeError when the
argument count does not match the signature, and only otherwise does the
body run. -/
def callUtils (fn : String) (given : Nat) : Except PyErr Unit :=
  if metadataUtilsFunctionNames.contains fn then
    if given = paramCount fn then Except.ok ()
    else Except.error (PyErr.typeErr fn (paramCount fn) given)
  else Except.error (PyErr.attrErr "metadata_utils" fn)

/-! ## The corpus exporters (json_export.py, yaml_export.py, metashare.py) -/

/-- A language-keyed text mapping such as the `name` / `description` /
`short_description` values of the `metadata` config. -/
abbrev LangMap := List (String × String)

/-- The keys of the host's `metadata` config bundle that the exporters
read; `none` models an absent key (`metadata.get(...)` returns `None`). -/
structure CorpusMetadataCfg where
  name : Option LangMap
  short_description : Option LangMap
  description : Option LangMap
deriving DecidableEq, Repr

/-- Truthiness of `metadata.get(k)` for a language map (an absent key and
an empty dict are falsy). -/
def truthyLangMapOpt : Option LangMap → Bool
  | some m => !m.isEmpty
  | none => false

/-- The size dict of the JSON exporter (`json_export.py:66-69`): the two
counter values are stored as read, with no parsing or validation. -/
def jsonSizeStep (tokens sentences : String) : PyVal × PyVal :=
  (PyVal.vstr tokens, PyVal.vstr sentences)

/-- Python `int(s)` (`ValueError` on a non-numeric string). -/
def pyInt (s : String) : Except PyErr Int :=
  match pyIntParse s with
  | some i => Except.ok i
  | none => Except.error (PyErr.valueErr s)

/-- The size dict of the YAML exporter (`yaml_export.py:93-96`): both
counters are parsed with `int(...)`; a non-numeric counter raises
ValueError, aborting the export. -/
def yamlSizeStep (tokens sentences : String) : Except PyErr (PyVal × PyVal) := do
  let t ← pyInt tokens
  let s ← pyInt sentences
  Except.ok (PyVal.vint t, PyVal.vint s)

/-- The downloads list of `json_export` (`json_export.py:74-78`) and
`yaml_export` (`yaml_export.py:101-105`): the first append calls
`make_standard_xml_export(md_xml_export, corpus_id)` with two positional
arguments against the three-parameter signature of `metadata_utils.py:25`,
so the call raises TypeError and nothing after it runs (the `.ok []` arm
is unreachable: no item can be built from the mismatched call). -/
def corpusDownloadsStep : Except PyErr (List PyDict) := do
  let _ ← callUtils "make_standard_xml_export" 2
  let _ ← callUtils "make_standard_stats_export" 2
  Except.ok []

/-- The interface list of `json_export` (`json_export.py:81-84`) and
`yaml_export` (`yaml_export.py:107-111`): `make_korp(md_korp, corpus_id,
korp_modes)` passes three positional arguments to the five-parameter
signature of `metadata_utils.py:84`. -/
def corpusInterfaceStep : Except PyErr (List PyDict) := do
  let _ ← callUtils "make_korp" 3
  Except.ok []

/-- The inputs the host injects into `json_export`
(`json_export.py:30-45`); `tokens` and `sentences` are the strings read
from the two counter files. -/
structure JsonExportIn where
  corpus_id : String
  lang : String
  metadata : CorpusMetadataCfg
  sentences : String
  tokens : String
  korp_modes : List KorpMode
  md_trainingdata : Bool
  md_in_collections : List String
  md_xml_export : String
  md_stats_export : Bool
  md_korp : Bool
  md_downloads : List PyDict
  md_interface : List PyDict
  md_contact : PyVal
deriving Repr

/-- The record `json_export` would serialize on success. -/
structure JsonMdObj where
  name : LangMap
  short_description : LangMap
  trainingdata : Bool
  language_codes : List String
  size_tokens : PyVal
  size_sentences : PyVal
  in_collections : List String
  downloads : List PyDict
  interface : List PyDict
  contact_info : PyVal
  description : Option LangMap
deriving Repr

/-- `json_export` (`json_export.py:29-101`), step by step in program
order: the name/short-description logic (py:47-57, `dict.get` cannot
raise), the raw size dict (py:66-69), `in_collections` (py:71, `x or []`
is the identity on lists), then the downloads list (py:74-78) where the
two-argument call into `make_standard_xml_export` raises TypeError; the
remaining steps (interface, contact info, description, the file write at
py:97-100) are never reached. `Except.ok` stands for "output file
written". -/
def json_export (inp : JsonExportIn) : Except PyErr JsonMdObj := do
  let name := inp.metadata.name.getD []
  let short_description :=
    if truthyLangMapOpt inp.metadata.short_description then inp.metadata.short_description.getD []
    else if truthyLangMapOpt inp.metadata.description then inp.metadata.description.getD []
    else []
  let set_long_description :=
    truthyLangMapOpt inp.metadata.short_description || !truthyLangMapOpt inp.metadata.description
  let size := jsonSizeStep inp.tokens inp.sentences
  let in_collections := inp.md_in_collections
  let downloads ← corpusDownloadsStep
  let interface ← corpusInterfaceStep
  let contact_info :=
    if inp.md_contact == PyVal.vstr "sbx-default" then PyVal.vcontact SBX_DEFAULT_CONTACT
    else inp.md_contact
  let description :=
    if set_long_description && truthyLangMapOpt inp.metadata.description then inp.metadata.description
    else none
  Except.ok { name := name, short_description := short_description
              trainingdata := inp.md_trainingdata, language_codes := [inp.lang]
              size_tokens := size.1, size_sentences := size.2
              in_collections := in_collections, downloads := downloads
              interface := interface, contact_info := contact_info
              description := description }

/-- The inputs the host injects into `yaml_export`
(`yaml_export.py:34-55`); the passthrough fields that play no further role
(`md_keywords`, `md_caveats`, `md_references`, `md_intended_uses` and the
annotation note) are carried as given. -/
structure YamlExportIn where
  corpus_id : String
  language : String
  metadata : CorpusMetadataCfg
  sentences : String
  tokens : String
  korp_modes : List KorpMode
  md_trainingdata : Bool
  md_in_collections : List String
  md_unlisted : Bool
  md_annotations : LangMap
  md_keywords : List String
  md_caveats : LangMap
  md_references : List String
  md_intended_uses : LangMap
  md_xml_export : String
  md_stats_export : Bool
  md_korp : Bool
  md_downloads : List PyDict
  md_interface : List PyDict
  md_contact : PyVal
deriving Repr

/-- The record `yaml_export` would serialize on success. -/
structure YamlMdObj where
  name : LangMap
  short_description : LangMap
  trainingdata : Bool
  unlisted : Bool
  language_codes : List String
  size_tokens : PyVal
  size_sentences : PyVal
  in_collections : List String
  downloads : List PyDict
  interface : List PyDict
  contact_info : PyVal
  description : LangMap
deriving Repr

/-- The short-description step of `yaml_export` (`yaml_export.py:60-69`):
`md_obj["short_description"]` is assigned only when the metadata config
has a truthy `short_description` or, failing that, a truthy
`description`; the warning loop's header then subscripts
`md_obj["short_description"]`, raising KeyError when neither branch ran
(the loop body itself only issues logger warnings). The second component
records `set_long_description`. -/
def shortDescriptionStep (md : CorpusMetadataCfg) : Except PyErr (LangMap × Bool) :=
  if truthyLangMapOpt md.short_description then Except.ok (md.short_description.getD [], true)
  else if truthyLangMapOpt md.description then Except.ok (md.description.getD [], false)
  else Except.error (PyErr.keyErr "short_description")

/-- `yaml_export` (`yaml_export.py:33-139`), step by step in program
order: name (py:58), the short-description step (py:60-84, can raise
KeyError), the simple fields (py:86-90), the parsed size dict (py:93-96,
can raise ValueError), then the downloads list (py:101-105) where the
two-argument call into `make_standard_xml_export` raises TypeError; the
remaining steps through the file write (py:137-139) are never reached.
`Except.ok` stands for "output file written". -/
def yaml_export (inp : YamlExportIn) : Except PyErr YamlMdObj := do
  let name := inp.metadata.name.getD []
  let sd ← shortDescriptionStep inp.metadata
  let size ← yamlSizeStep inp.tokens inp.sentences
  let in_collections := inp.md_in_collections
  let downloads ← corpusDownloadsStep
  let interface ← corpusInterfaceStep
  let contact_info :=
    if inp.md_contact == PyVal.vstr "sbx-default" then PyVal.vcontact SBX_DEFAULT_CONTACT
    else inp.md_contact
  let description :=
    if sd.2 && truthyLangMapOpt inp.metadata.description then inp.metadata.description.getD []
    else [("swe", ""), ("eng", "")]
  Except.ok { name := name, short_description := sd.1
              trainingdata := inp.md_trainingdata, unlisted := inp.md_unlisted
              language_codes := [inp.language]
              size_tokens := size.1, size_sentences := size.2
              in_collections := in_collections, downloads := downloads
              interface := interface, contact_info := contact_info
              description := description }

/-- The inputs of `metashare` (`metashare.py:30-47`) that feed its calls
into `metadata_utils`. -/
structure MetashareIn where
  corpus_id : String
  lang : String
  md_xml_export : String
  md_stats_export : Bool
  md_korp : Bool
deriving Repr

/-- `metashare` (`metashare.py:29-117`): the template parse and the
identification / availability / metadata-date edits (py:49-69) make no
calls into `metadata_utils` and cannot raise for the well-formed
downloaded template; the licence-info block (py:73-76) then calls
`make_standard_xml_export(md_xml_export, corpus_id)` with two positional
arguments against a three-parameter signature, raising TypeError. The
later calls on py:74-76 (including the reference to the undefined
`metadata_utils.make_metashare`) and the file write (py:114-117) are
never reached. `Except.ok` stands for "output file written". -/
def metashare (_inp : MetashareIn) : Except PyErr Unit := do
  let _ ← callUtils "make_standard_xml_export" 2
  let _ ← callUtils "make_standard_stats_export" 2
  let _ ← callUtils "make_korp" 3
  let _ ← callUtils "make_metashare" 1
  Except.ok ()

/-! ## metashare.py — annotation-type inference (_set_annotation_info) -/

/-- `metashare.py:22`. -/
def AUTO_TOKEN : List String :=
  ["segment.token", "stanza.token", "freeling.token", "stanford.token"]

/-- `metashare.py:23` (the `stanfort.sentence` typo is the source's). -/
def AUTO_SENT : List String :=
  ["segment.sentence", "stanza.sentence", "freeling.sentence", "stanfort.sentence"]

/-- `metashare.py:24-25`. -/
def AUTO_POS : List String :=
  ["hunpos.pos", "hunpos.msd", "hunpos.msd_hist", "hist.homograph_set", "stanza.pos",
   "stanza.msd", "stanza.upos", "misc.upos", "flair.pos", "flair.msd", "freeling.pos",
   "stanford.pos"]

/-- `metashare.py:26`. -/
def AUTO_BASEFORM : List String :=
  ["saldo.baseform", "hist.baseform", "freeling.baseform", "treetagger.baseform",
   "stanford.baseform"]

/-- The computation `any(x for x in KEYS if [a for a in annotations if x in a])`
(`metashare.py:221-224`): some recognized name occurs as a substring of
some exported annotation name. -/
def autoMatch (keys : List String) (anns : List String) : Bool :=
  keys.any (fun x => anns.any (fun a => strContainsSub a x))

/-- One `annotationInfo` element appended by `_set_annotation_info`:
its `annotationType` text, its `segmentationLevel` children in document
order, and the `annotationFormat` / `annotationMode` texts appended by
`append_rest` (`metashare.py:211-217`). -/
structure AnnBlock where
  annotationType : String
  segmentationLevels : List String
  annotationFormat : String
  annotationMode : String
deriving DecidableEq, Repr

/-- `_set_annotation_info` (`metashare.py:207-248`), as the list of
`annotationInfo` blocks appended to `corpusTextInfo` in order: a
segmentation block when a token-like or sentence-like name matched (its
levels list `sentence` then `word`, each only when matched), then a
lemmatization block when a baseform-like name matched, then a
part-of-speech block when a POS-like name matched; every block records
mode `automatic` (`auto=True` at every call site). -/
def setAnnotationInfoBlocks (anns : List String) : List AnnBlock :=
  let auto_token := autoMatch AUTO_TOKEN anns
  let auto_sent := autoMatch AUTO_SENT anns
  let auto_baseform := autoMatch AUTO_BASEFORM anns
  let auto_pos := autoMatch AUTO_POS anns
  (if auto_token || auto_sent then
    [{ annotationType := "segmentation"
       segmentationLevels :=
         (if auto_sent then ["sentence"] else []) ++ (if auto_token then ["word"] else [])
       annotationFormat := "text/xml", annotationMode := "automatic" }]
   else []) ++
  (if auto_baseform then
    [{ annotationType := "lemmatization", segmentationLevels := []
       annotationFormat := "text/xml", annotationMode := "automatic" }]
   else []) ++
  (if auto_pos then
    [{ annotationType := "morphosyntacticAnnotation-posTagging", segmentationLevels := []
       annotationFormat := "text/xml", annotationMode := "automatic" }]
   else [])

/-! ## analysis_metadata_export.py — the Aggregator

`create_export_files` (analysis_metadata_export.py:48-157) loops over the
modules' metadata files; for each module it resets `parents` / `all_ids`
and processes the file's documents in order. The embedding below models
the per-module body for one metadata file; the outer loop just iterates
it with fresh state. -/

/-- The data `collect_known` gathers about one module
(`analysis_metadata_export.py:326-355`): the declared output annotations
(name pattern, possibly containing brace-delimited wildcard segments,
mapped to the annotation's description and class) and the module's
importer / exporter names. -/
structure AnnInfo where
  description : String
  cls : Option String
deriving DecidableEq, Repr

/-- Known data about one module. -/
structure KnownData where
  annotations : List (String × AnnInfo)
  importers : List String
  exporters : List String
deriving Repr

mutual
/-- Split a known annotation name into its literal segments around
brace-delimited wildcard segments (`re.sub(r"\\\x7b.+?\\\x7d", ".+",
re.escape(a))` at `analysis_metadata_export.py:171`): `cur` accumulates
the current literal segment in reverse. An opening brace switches to
`swBrace`; the lazy `.+?` closes the wildcard at the first closing brace
with at least one character inside. -/
def swAux (cur : List Char) : List Char → List (List Char)
  | [] => [cur.reverse]
  | c :: rest =>
    if c.toNat == 123 then swBrace cur [c] rest
    else swAux (c :: cur) rest
termination_by cs => cs.length

/-- Inside a candidate wildcard: `pending` holds the raw characters since
the opening brace (in reverse) in case no closing brace ever appears, in
which case the whole run stays a literal. A closing brace with at least
one content character already consumed ends the wildcard: the literal
before it is emitted and scanning restarts. -/
def swBrace (cur pending : List Char) : List Char → List (List Char)
  | [] => [(pending ++ cur).reverse]
  | c :: rest =>
    if c.toNat == 125 && 2 ≤ pending.length then cur.reverse :: swAux [] rest
    else swBrace cur (c :: pending) rest
termination_by cs => cs.length
end

/-- The literal segments of a known annotation name, around its wildcard
placeholders: `"a\x7bx\x7db"` becomes `["a", "b"]`. -/
def splitWildcard (cs : List Char) : List (List Char) := swAux [] cs

mutual
/-- `re.fullmatch` of the compiled pattern against an annotation name: the
name decomposes as the literal segments interleaved with non-empty gaps
(each wildcard became `.+`). -/
def matchSegs : List (List Char) → List Char → Bool
  | [], s => s.isEmpty
  | [l], s => l == s
  | l :: l2 :: rest, s =>
    charsBeginWith l s && matchGap (l2 :: rest) (s.drop l.length)
termination_by segs s => 2 * s.length + segs.length

/-- Consume one or more characters for a `.+` gap, then match the
remaining segments. -/
def matchGap (segs : List (List Char)) : List Char → Bool
  | [] => false
  | _ :: s2 => matchSegs segs s2 || matchGap segs s2
termination_by s => 2 * s.length + segs.length
end

/-- `get_annotation_info` (`analysis_metadata_export.py:160-181`): resolve
each listed annotation against the module's known annotation patterns
(first matching pattern wins), collecting the unresolved ones as a set
(modeled as a duplicate-free list in first-occurrence order). -/
def getAnnotationInfo (anns : List String) (known : KnownData) :
    List (String × AnnInfo) × List String :=
  let pats := known.annotations.map (fun p => (splitWildcard p.1.data, p.2))
  anns.foldl
    (fun acc a =>
      match pats.find? (fun p => matchSegs p.1 a.data) with
      | some p => (acc.1 ++ [(a, p.2)], acc.2)
      | none => (acc.1, if acc.2.contains a then acc.2 else acc.2 ++ [a]))
    ([], [])

/-- Lookup in the resolved annotation info. -/
def lookupInfo (info : List (String × AnnInfo)) (a : String) : Option AnnInfo :=
  (info.find? (fun p => p.1 == a)).map (fun p => p.2)

/-- `set_analysis_unit` (`analysis_metadata_export.py:258-273`): derive
`analysis_unit` from the first annotation whose name prefix or declared
class is token / sentence / paragraph / text, unless the key is already
present. The `annotation_info[annotation]` subscripts cannot miss here
because the caller has already rejected documents with unresolved
annotations; an absent entry is modeled as matching no class. -/
def setAnalysisUnit (data : PyDict) (anns : List String)
    (info : List (String × AnnInfo)) : PyDict :=
  if (dictGet data "analysis_unit").isNone && !anns.isEmpty then
    match anns.findSome? (fun a =>
      let cls := (lookupInfo info a).bind (fun i => i.cls)
      if strStartsWith a "<token>" || cls == some "token" then some "token"
      else if strStartsWith a "<sentence>" || cls == some "sentence" then some "sentence"
      else if strStartsWith a "<paragraph>" || cls == some "paragraph" then some "paragraph"
      else if strStartsWith a "<text>" || cls == some "text" then some "text"
      else none) with
    | some u => dictSet data "analysis_unit" (PyVal.vstr u)
    | none => data
  else data

/-- `generate_analysis_example` (`analysis_metadata_export.py:184-236`):
pop `plugin_url` and build the plugin note when the module is a plugin,
generate the configuration-snippet example unless one is manually set,
and append the example output when given. -/
def generateAnalysisExample (data : PyDict) (anns : List String)
    (info : List (String × AnnInfo)) (isPlugin : Bool) (module_name : String)
    (example_output example_extra : Option String) : PyDict :=
  let pu := if isPlugin then dictPop data "plugin_url" else (none, data)
  let plugin_info :=
    if isPlugin then
      let plugin_link :=
        match pu.1 with
        | some (PyVal.vstr u) =>
          if u ≠ "" then "[" ++ module_name ++ "](" ++ u ++ ")" else module_name
        | _ => module_name
      "You also need to install the following plugin: *" ++ plugin_link ++ "*.\n\n" ++
      "For general information on how to install plugins, see [here]" ++
      "(https://spraakbanken.gu.se/sparv/#/user-manual/installation-and-setup?id=plugins).\n\n"
    else ""
  let data := pu.2
  let data :=
    if !pyTruthyOpt (dictGet data "example") then
      let extra :=
        match example_extra with
        | some e => if e ≠ "" then e ++ "\n\n" else ""
        | none => ""
      let annotations_list :=
        String.intercalate "\n" (anns.map (fun a =>
          "- " ++ a ++ "  # " ++
            (match lookupInfo info a with
             | some i => i.description
             | none => "")))
      let plural := if anns.length > 1 then "s" else ""
      dictSet data "example" (PyVal.vstr
        ("This analysis is used with Sparv. Check out [Sparv\x27s quick start guide]" ++
         "(https://spraakbanken.gu.se/sparv/#/user-manual/quick-start) to get started!\n" ++
         "\n" ++
         "To use this analysis, add the following line" ++ plural ++
         " under `export.annotations` in the Sparv " ++
         "[corpus configuration file]" ++
         "(https://spraakbanken.gu.se/sparv/#/user-manual/quick-start?id=creating-the-config-file):\n" ++
         "\n" ++
         "```yaml\n" ++ annotations_list ++ "\n" ++ "```\n" ++
         "\n" ++
         extra ++ plugin_info ++
         "For more info on how to use Sparv, check out the [Sparv documentation]" ++
         "(https://spraakbanken.gu.se/sparv).\n"))
    else data
  match example_output with
  | some eo =>
    if eo ≠ "" then
      match dictGet data "example" with
      | some (PyVal.vstr ex) =>
        dictSet data "example" (PyVal.vstr (ex ++ "\nExample output:\n" ++ strStrip eo))
      | _ => data
    else data
  | none => data

/-- `generate_utility_example` (`analysis_metadata_export.py:239-255`):
generate the command-style example unless one is manually set. -/
def generateUtilityExample (data : PyDict) (handler handler_type : String)
    (example_extra : Option String) : PyDict :=
  if !pyTruthyOpt (dictGet data "example") then
    let extra :=
      match example_extra with
      | some e => if e ≠ "" then e ++ "\n\n" else ""
      | none => ""
    dictSet data "example" (PyVal.vstr
      ("This " ++ handler_type ++ " is used with Sparv. Check out [Sparv\x27s quick start guide]" ++
       "(https://spraakbanken.gu.se/sparv/#/user-manual/quick-start) to get started!\n" ++
       "\n" ++
       "To use this " ++ handler_type ++ ", run Sparv with the argument \x27" ++ handler ++
       "\x27:\n\n" ++
       "```sh\n" ++ "sparv run " ++ handler ++ "\n" ++ "```\n" ++
       "\n" ++
       extra ++
       "For more info on how to use Sparv, check out the [Sparv documentation]" ++
       "(https://spraakbanken.gu.se/sparv).\n"))
  else data

/-- The two destination directories (`analysis_metadata_export.py:35-36`). -/
inductive ExportDir where
  | analysisDir
  | utilityDir
deriving DecidableEq, Repr

/-- One emitted metadata file: its directory, the id naming it
(`\x7bid\x7d.yaml`), and the final document dict it serializes. -/
structure WrittenFile where
  dir : ExportDir
  name : String
  content : PyDict
deriving DecidableEq, Repr

/-- The data-integrity errors the Aggregator logs with `logger.error`
(each fatal to one document only: the loop `continue`s). -/
inductive DocErr where
  | duplicateId (id : String) (module_name : String)
  | noAnns (id : String) (module_name : String)
  | unknownAnns (id : String) (module_name : String) (unknown : List String)
  | unknownHandler (id : String) (module_name : String) (handler : String)
  | unknownType (id : String) (module_name : String)
deriving DecidableEq, Repr

/-- The per-module loop state of `create_export_files`: the `parents`
registry of abstract documents, the `all_ids` duplicate check set, the
files written so far and the errors logged so far. -/
structure BatchState where
  parents : List (String × PyDict)
  all_ids : List String
  written : List WrittenFile
  errors : List DocErr
deriving DecidableEq, Repr

/-- `parents[data["id"]] = data`. -/
def putParent (ps : List (String × PyDict)) (k : String) (v : PyDict) :
    List (String × PyDict) :=
  if (ps.find? (fun p => p.1 == k)).isSome then
    ps.map (fun p => if p.1 == k then (k, v) else p)
  else ps ++ [(k, v)]

/-- The tail of the document loop (`analysis_metadata_export.py:143-156`):
default the code license when the module is not a plugin and none is set,
default the contact info from `md_contact` when none is set, strip falsy
fields, and write `\x7banalysis_id\x7d.yaml` into the chosen directory. -/
def finalizeDoc (st : BatchState) (dir : ExportDir) (analysis_id : String)
    (isPlugin : Bool) (md_contact : PyVal) (data : PyDict) : BatchState :=
  let data :=
    if !isPlugin && !pyTruthyOpt (dictGet data "license") then
      dictSet data "license" (PyVal.vstr DEFAULT_CODE_LICENSE)
    else data
  let data :=
    if !pyTruthyOpt (dictGet data "contact_info") && pyTruthy md_contact then
      dictSet data "contact_info"
        (if md_contact == PyVal.vstr "sbx-default" then PyVal.vcontact SBX_DEFAULT_CONTACT
         else md_contact)
    else data
  let data := data.filter (fun kv => pyTruthy kv.2)
  { st with written := st.written ++ [{ dir := dir, name := analysis_id, content := data }] }

/-- One iteration of the document loop of `create_export_files`
(`analysis_metadata_export.py:79-156`). In program order: pop `parent`
and inherit — the lookup `parents[parent_id]` raises an uncaught KeyError
when the parent id was not declared by an earlier abstract document; pop
`abstract` and, when truthy, store the document for inheritance without
emitting it; pop `id` and skip (logging an error) on a duplicate; pop
`annotations` / `example_output` / `example_extra`; then classify as
analysis (annotations must all resolve) or utility (the handler must be a
known importer or exporter), log-and-skip on the remaining integrity
errors, and finalize. Ids are strings in every metadata file; a
non-string id is modeled as the KeyError Python would hit looking it up. -/
def processDoc (module_name : String) (isPlugin : Bool) (known : KnownData)
    (md_contact : PyVal) (st : BatchState) (doc : PyDict) : Except PyErr BatchState :=
  let parentPopped := dictPop doc "parent"
  let inheritStep : Except PyErr PyDict :=
    if pyTruthyOpt parentPopped.1 then
      match parentPopped.1 with
      | some (PyVal.vstr pid) =>
        match (st.parents.find? (fun p => p.1 == pid)).map (fun p => p.2) with
        | some pdata => Except.ok (dictUpdate pdata parentPopped.2)
        | none => Except.error (PyErr.keyErr pid)
      | _ => Except.error (PyErr.keyErr "parent")
    else Except.ok parentPopped.2
  match inheritStep with
  | Except.error e => Except.error e
  | Except.ok data0 =>
    let abstractPopped := dictPop data0 "abstract"
    if pyTruthyOpt abstractPopped.1 then
      match dictGet abstractPopped.2 "id" with
      | some (PyVal.vstr aid) =>
        Except.ok { st with parents := putParent st.parents aid abstractPopped.2 }
      | _ => Except.error (PyErr.keyErr "id")
    else
      match dictPop abstractPopped.2 "id" with
      | (some (PyVal.vstr analysis_id), data2) =>
        if st.all_ids.contains analysis_id then
          Except.ok { st with errors := st.errors ++ [DocErr.duplicateId analysis_id module_name] }
        else
          let st1 := { st with all_ids := st.all_ids ++ [analysis_id] }
          let annsPopped := dictPop data2 "annotations"
          let exOutPopped := dictPop annsPopped.2 "example_output"
          let exExtraPopped := dictPop exOutPopped.2 "example_extra"
          let data5 := exExtraPopped.2
          let anns : List String :=
            match annsPopped.1 with
            | some (PyVal.vstrlist l) => l
            | _ => []
          let example_output : Option String :=
            match exOutPopped.1 with
            | some (PyVal.vstr s) => some s
            | _ => none
          let example_extra : Option String :=
            match exExtraPopped.1 with
            | some (PyVal.vstr s) => some s
            | _ => none
          if dictGet data5 "type" == some (PyVal.vstr "analysis") || pyTruthyOpt annsPopped.1 then
            if anns.isEmpty then
              Except.ok { st1 with errors := st1.errors ++ [DocErr.noAnns analysis_id module_name] }
            else
              let resolved := getAnnotationInfo anns known
              if !resolved.2.isEmpty then
                Except.ok { st1 with
                  errors := st1.errors ++ [DocErr.unknownAnns analysis_id module_name resolved.2] }
              else
                let data6 := dictSet data5 "type" (PyVal.vstr "analysis")
                let data7 := setAnalysisUnit data6 anns resolved.1
                let data8 := generateAnalysisExample data7 anns resolved.1 isPlugin module_name
                  example_output example_extra
                Except.ok (finalizeDoc st1 ExportDir.analysisDir analysis_id isPlugin md_contact data8)
          else if dictGet data5 "type" == some (PyVal.vstr "utility")
              || pyTruthyOpt (dictGet data5 "sparv_handler") then
            let data6 := dictSet data5 "type" (PyVal.vstr "utility")
            let handlerPopped := dictPop data6 "sparv_handler"
            let data7 := handlerPopped.2
            match handlerPopped.1 with
            | some (PyVal.vstr h) =>
              if known.importers.contains h then
                Except.ok (finalizeDoc st1 ExportDir.utilityDir analysis_id isPlugin md_contact
                  (generateUtilityExample data7 h "importer" example_extra))
              else if known.exporters.contains h then
                Except.ok (finalizeDoc st1 ExportDir.utilityDir analysis_id isPlugin md_contact
                  (generateUtilityExample data7 h "exporter" example_extra))
              else
                Except.ok { st1 with
                  errors := st1.errors ++ [DocErr.unknownHandler analysis_id module_name h] }
            | _ =>
              Except.ok { st1 with
                errors := st1.errors ++ [DocErr.unknownHandler analysis_id module_name "None"] }
          else
            Except.ok { st1 with errors := st1.errors ++ [DocErr.unknownType analysis_id module_name] }
      | (some _, _) => Except.error (PyErr.keyErr "id")
      | (none, _) => Except.error (PyErr.keyErr "id")

/-- The per-module body of `create_export_files`
(`analysis_metadata_export.py:69-157`) for one metadata file: fresh
`parents` / `all_ids` state, then the documents in file order; an
uncaught exception in any document aborts the whole batch. -/
def create_export_files (module_name : String) (isPlugin : Bool) (known : KnownData)
    (md_contact : PyVal) (docs : List PyDict) : Except PyErr BatchState :=
  docs.foldlM (processDoc module_name isPlugin known md_contact)
    { parents := [], all_ids := [], written := [], errors := [] }

/-! ## Declarative configuration (sbx_metadata/__init__.py) -/

/-- The `choices` tuple of the `sbx_metadata.xml_export` Config
declaration (`__init__.py:30-36`): the only place the accepted value set
is stated; enforcement is left to the host's configuration system, no
function of this repository validates the value. -/
def xmlExportChoices : List String := ["scrambled", "original", "false"]

/-! ## Sample inputs used by witnesses and counterexamples -/

/-- A well-populated `metadata` config bundle. -/
def sampleMeta : CorpusMetadataCfg :=
  { name := some [("swe", "Korpusen"), ("eng", "The corpus")]
    short_description := some [("swe", "Kort"), ("eng", "Short")]
    description := some [("swe", "En testkorpus"), ("eng", "A test corpus")] }

/-- A `metadata` config bundle with no name, short description or
description keys at all. -/
def emptyMeta : CorpusMetadataCfg :=
  { name := none, short_description := none, description := none }

/-- A `metadata` config bundle whose `short_description` is present but
empty (falsy) and whose `description` is absent. -/
def noDescMeta : CorpusMetadataCfg :=
  { name := some [("swe", "Korpusen")], short_description := some [], description := none }

/-- A representative `json_export` invocation. -/
def sampleJsonIn : JsonExportIn :=
  { corpus_id := "testkorpus", lang := "swe", metadata := sampleMeta
    sentences := "123", tokens := "4567"
    korp_modes := [{ name := some "default" }]
    md_trainingdata := false, md_in_collections := []
    md_xml_export := "scrambled", md_stats_export := true, md_korp := true
    md_downloads := [], md_interface := [], md_contact := PyVal.vstr "sbx-default" }

/-- The `json_export` invocation with the out-of-set value `"bogus"` for
`sbx_metadata.xml_export`. -/
def bogusJsonIn : JsonExportIn := { sampleJsonIn with md_xml_export := "bogus" }

/-- A representative `yaml_export` invocation. -/
def sampleYamlIn : YamlExportIn :=
  { corpus_id := "testkorpus", language := "swe", metadata := sampleMeta
    sentences := "123", tokens := "4567"
    korp_modes := [{ name := some "default" }]
    md_trainingdata := false, md_in_collections := [], md_unlisted := false
    md_annotations := [], md_keywords := [], md_caveats := [], md_references := []
    md_intended_uses := [], md_xml_export := "scrambled", md_stats_export := true
    md_korp := true, md_downloads := [], md_interface := []
    md_contact := PyVal.vstr "sbx-default" }

/-- The `yaml_export` invocation whose metadata config has neither a
short description nor a description. -/
def emptyMetaYamlIn : YamlExportIn := { sampleYamlIn with metadata := emptyMeta }

/-- The `yaml_export` invocation whose metadata config has an empty
short description and no description. -/
def noDescYamlIn : YamlExportIn := { sampleYamlIn with metadata := noDescMeta }

/-- A representative `metashare` invocation. -/
def sampleMetashareIn : MetashareIn :=
  { corpus_id := "testkorpus", lang := "swe", md_xml_export := "scrambled"
    md_stats_export := true, md_korp := true }

/-- The steps of `yaml_export` that precede the downloads list succeed:
the metadata config has a truthy short description or, failing that, a
truthy description (`yaml_export.py:60-69`), and both counters parse as
integers (`yaml_export.py:93-96`). -/
def yamlPreStepsSucceed (inp : YamlExportIn) : Prop :=
  (truthyLangMapOpt inp.metadata.short_description = true ∨
    truthyLangMapOpt inp.metadata.description = true) ∧
  pyIntParse inp.tokens ≠ none ∧ pyIntParse inp.sentences ≠ none

/-! ## Sample aggregator batches -/

/-- Known data of the sample module `mymod`: one exporter named
`mymod:save`, no importers, no declared output annotations (the shape
`collect_known` produces). -/
def knownMymod : KnownData :=
  { annotations := [], importers := [], exporters := ["mymod:save"] }

/-- A minimal valid utility document with the given id. -/
def utilityDoc (x : String) : PyDict :=
  [("id", PyVal.vstr x), ("sparv_handler", PyVal.vstr "mymod:save")]

/-- A document declaring a parent id `ghost` never declared by any
earlier abstract document. -/
def ghostParentDoc : PyDict :=
  [("id", PyVal.vstr "child"), ("parent", PyVal.vstr "ghost"),
   ("sparv_handler", PyVal.vstr "mymod:save")]

/-- The abstract parent document A: flagged abstract, license MIT, and a
handler for its children to inherit. -/
def abstractDocA : PyDict :=
  [("abstract", PyVal.vbool true), ("id", PyVal.vstr "A"),
   ("license", PyVal.vstr "MIT"), ("sparv_handler", PyVal.vstr "mymod:save")]

/-- The child document B: declares `parent: A`, its own id `b` and its
own license GPL. -/
def childDocB : PyDict :=
  [("parent", PyVal.vstr "A"), ("id", PyVal.vstr "b"), ("license", PyVal.vstr "GPL")]

/-! ## Theorems -/

/-- Helper: every invocation of `yaml_export` ends in an error — the
short-description step, the size parse or (at the latest) the
mismatched-arity downloads call raises; the file write is unreachable. -/
theorem yaml_export_isError (y : YamlExportIn) : ∃ e, yaml_export y = Except.error e := by
  unfold yaml_export
  cases hsd : shortDescriptionStep y.metadata with
  | error e => exact ⟨e, by simp [hsd, Bind.bind, Except.bind]⟩
  | ok v =>
    cases hsz : yamlSizeStep y.tokens y.sentences with
    | error e => exact ⟨e, by simp [hsd, hsz, Bind.bind, Except.bind]⟩
    | ok w =>
      exact ⟨PyErr.typeErr "make_standard_xml_export" 3 2,
        by simp [hsd, hsz, Bind.bind, Except.bind, corpusDownloadsStep, callUtils,
                 metadataUtilsFunctionNames, paramCount]⟩

/-- C1 (amended): the calls from the exporters into `metadata_utils` do
not match its signatures — two arguments against the three-parameter
`make_standard_xml_export` / `make_standard_stats_export`, three against
the five-parameter `make_korp`, and `make_metashare` is not defined at
all. Hence no invocation of `json_export`, `yaml_export` or `metashare`
ever writes an output file: `json_export` and `metashare` always raise
the TypeError from the first downloads call, `yaml_export` raises that
same TypeError whenever its earlier steps (short description, integer
size parse) succeed, and every `yaml_export` invocation errors out one
way or the other. -/
theorem C1_theorem (jin : JsonExportIn) (msIn : MetashareIn) (yin : YamlExportIn)
    (hy : yamlPreStepsSucceed yin) :
    json_export jin = Except.error (PyErr.typeErr "make_standard_xml_export" 3 2) ∧
    metashare msIn = Except.error (PyErr.typeErr "make_standard_xml_export" 3 2) ∧
    yaml_export yin = Except.error (PyErr.typeErr "make_standard_xml_export" 3 2) ∧
    (∀ y : YamlExportIn, ∃ e, yaml_export y = Except.error e) ∧
    metadataUtilsFunctionNames.contains "make_metashare" = false := by
  obtain ⟨hsd, ht, hs⟩ := hy
  obtain ⟨t, ht⟩ := Option.ne_none_iff_exists'.mp ht
  obtain ⟨s, hs⟩ := Option.ne_none_iff_exists'.mp hs
  refine ⟨rfl, rfl, ?_, yaml_export_isError, by decide⟩
  unfold yaml_export
  cases hv : shortDescriptionStep yin.metadata with
  | error e =>
    exfalso
    unfold shortDescriptionStep at hv
    rcases hsd with h | h
    · simp [h] at hv
    · by_cases h2 : truthyLangMapOpt yin.metadata.short_description = true
      · simp [h2] at hv
      · simp [h2, h] at hv
  | ok v =>
    simp [hv, yamlSizeStep, pyInt, ht, hs, Bind.bind, Except.bind, corpusDownloadsStep,
          callUtils, metadataUtilsFunctionNames, paramCount]

/-- C1, counterexample to the claim as stated: an invocation of
`yaml_export` whose metadata config has neither a short description nor a
description raises KeyError at the short-description subscript — not a
TypeError (or AttributeError) while building the downloads/interface
lists. -/
theorem C1_counterexample :
    yaml_export emptyMetaYamlIn = Except.error (PyErr.keyErr "short_description") := rfl

/-- C1, witness: the amended theorem instantiated at representative
concrete invocations whose pre-downloads steps succeed. -/
theorem C1_witness :
    json_export sampleJsonIn = Except.error (PyErr.typeErr "make_standard_xml_export" 3 2) ∧
    metashare sampleMetashareIn = Except.error (PyErr.typeErr "make_standard_xml_export" 3 2) ∧
    yaml_export sampleYamlIn = Except.error (PyErr.typeErr "make_standard_xml_export" 3 2) :=
  have h := C1_theorem sampleJsonIn sampleMetashareIn sampleYamlIn
    ⟨Or.inl (by decide), by decide, by decide⟩
  ⟨h.1, h.2.1, h.2.2.1⟩

/-- C4 (amended): the accepted `xml_export` values are stated only
declaratively, by the `choices` tuple of the Config declaration —
`"bogus"` is outside it — while the export code itself performs no enum
validation and raises no descriptive configuration error: an invocation
carrying `"bogus"` fails with the same signature-mismatch TypeError as
every other invocation, an error that names no value and no
alternatives. -/
theorem C4_theorem (jin : JsonExportIn) (hbog : jin.md_xml_export = "bogus") :
    jin.md_xml_export ∉ xmlExportChoices ∧
    json_export jin = Except.error (PyErr.typeErr "make_standard_xml_export" 3 2) ∧
    (∀ msg, json_export jin ≠ Except.error (PyErr.configErr msg)) := by
  refine ⟨by rw [hbog]; decide, rfl, fun msg hmsg => ?_⟩
  rw [show json_export jin = Except.error (PyErr.typeErr "make_standard_xml_export" 3 2)
      from rfl] at hmsg
  exact PyErr.noConfusion (Except.error.inj hmsg)

/-- C4, counterexample to the claim as stated: the export call invoked
with the out-of-set value `"bogus"` raises the signature-mismatch
TypeError, which is not a configuration error and names neither the
invalid value nor the three legal alternatives. -/
theorem C4_counterexample :
    "bogus" ∉ xmlExportChoices ∧
    json_export bogusJsonIn = Except.error (PyErr.typeErr "make_standard_xml_export" 3 2) :=
  ⟨by decide, rfl⟩

/-- C4, witness: the amended theorem instantiated at the concrete
invocation carrying `"bogus"`. -/
theorem C4_witness :
    bogusJsonIn.md_xml_export ∉ xmlExportChoices ∧
    json_export bogusJsonIn = Except.error (PyErr.typeErr "make_standard_xml_export" 3 2) :=
  have h := C4_theorem bogusJsonIn rfl
  ⟨h.1, h.2.1⟩

/-- C10: when the metadata configuration provides neither a truthy
`short_description` nor a truthy `description`, `yaml_export` raises an
uncaught KeyError on `md_obj["short_description"]` at the warning loop's
subscript, instead of exporting a record with the description fields
absent or empty. -/
theorem C10_theorem (inp : YamlExportIn)
    (h1 : truthyLangMapOpt inp.metadata.short_description = false)
    (h2 : truthyLangMapOpt inp.metadata.description = false) :
    yaml_export inp = Except.error (PyErr.keyErr "short_description") := by
  unfold yaml_export shortDescriptionStep
  simp [h1, h2, Bind.bind, Except.bind]

/-- C10, witness: the theorem instantiated at an invocation whose
metadata has an empty `short_description` dict and no `description`. -/
theorem C10_witness :
    yaml_export noDescYamlIn = Except.error (PyErr.keyErr "short_description") :=
  C10_theorem noDescYamlIn (by decide) (by decide)

/-- C3 (amended): only the YAML exporter computes its size field by
parsing both counters with `int(...)` — yielding integer values,
nonnegative whenever the counters parse as naturals, with a non-numeric
counter a fatal ValueError — while the JSON exporter stores both counter
values unparsed as the raw strings, with no integer check and no failure
on a non-numeric value. -/
theorem C3_theorem (t s : String) (tn sn : Nat)
    (ht : pyIntParse t = some (tn : Int)) (hs : pyIntParse s = some (sn : Int)) :
    yamlSizeStep t s = Except.ok (PyVal.vint tn, PyVal.vint sn) ∧
    (0 : Int) ≤ (tn : Int) ∧ (0 : Int) ≤ (sn : Int) ∧
    (∀ t2 s2 : String, pyIntParse t2 = none →
      yamlSizeStep t2 s2 = Except.error (PyErr.valueErr t2)) ∧
    (∀ t2 s2 : String, jsonSizeStep t2 s2 = (PyVal.vstr t2, PyVal.vstr s2)) := by
  refine ⟨?_, Int.natCast_nonneg tn, Int.natCast_nonneg sn, ?_, fun _ _ => rfl⟩
  · simp [yamlSizeStep, pyInt, ht, hs, Bind.bind, Except.bind]
  · intro t2 s2 h
    simp [yamlSizeStep, pyInt, h, Bind.bind, Except.bind]

/-- C3, counterexample to the claim as stated: the JSON exporter's size
step does not parse the counters — with the non-numeric counter value
`"abc"` it neither fails nor yields an integer, emitting the raw string
instead. -/
theorem C3_counterexample :
    pyIntParse "abc" = none ∧
    jsonSizeStep "abc" "7" = (PyVal.vstr "abc", PyVal.vstr "7") :=
  ⟨rfl, rfl⟩

/-- C3, witness: the amended theorem instantiated at the digit-string
counters `"4567"` and `"123"`. -/
theorem C3_witness :
    yamlSizeStep "4567" "123" = Except.ok (PyVal.vint 4567, PyVal.vint 123) ∧
    yamlSizeStep "abc" "123" = Except.error (PyErr.valueErr "abc") :=
  have h := C3_theorem "4567" "123" 4567 123 (by decide) (by decide)
  ⟨h.1, h.2.2.2.1 "abc" "123" (by decide)⟩

/-- C7: `make_standard_stats_export` with the enable flag set and no
selected installation matching `"stats_export:"` logs the mismatch
warning and still returns a non-null item; in general it returns an item
exactly when at least one of the two signals (the truthy enable flag, a
matching selected installation) is positive, and for a boolean flag a
warning is logged exactly on a mismatch between the two signals — the
warnings never affect the returned item. -/
theorem C7_theorem (cid : String) (installations : Option (List String))
    (hnomatch : statsInstallationSelected installations = false) :
    (make_standard_stats_export cid (some true) installations).1 =
      [StatsWarning.enabledNoInstallation] ∧
    (make_standard_stats_export cid (some true) installations).2 ≠ none ∧
    (∀ (se : Option Bool) (inst : Option (List String)),
      ((make_standard_stats_export cid se inst).2 ≠ none ↔
        (pyTruthyBoolOpt se = true ∨ statsInstallationSelected inst = true))) ∧
    (∀ (b : Bool) (inst : Option (List String)),
      ((make_standard_stats_export cid (some b) inst).1 ≠ [] ↔
        b ≠ statsInstallationSelected inst)) := by
  refine ⟨?_, ?_, ?_, ?_⟩
  · simp [make_standard_stats_export, hnomatch, pyTruthyBoolOpt]
  · simp [make_standard_stats_export, hnomatch, pyTruthyBoolOpt]
  · intro se inst
    by_cases h1 : pyTruthyBoolOpt se = true <;>
      by_cases h2 : statsInstallationSelected inst = true <;>
        simp [make_standard_stats_export, h1, h2]
  · intro b inst
    cases b <;> cases h2 : statsInstallationSelected inst <;>
      simp [make_standard_stats_export, h2, pyTruthyBoolOpt]

/-- C7, witness: the theorem instantiated with the flag enabled and a
selected-installations list containing no `stats_export:` entry. -/
theorem C7_witness :
    (make_standard_stats_export "testkorpus" (some true) (some ["xml_export:pretty"])).1 =
      [StatsWarning.enabledNoInstallation] ∧
    (make_standard_stats_export "testkorpus" (some true) (some ["xml_export:pretty"])).2 ≠ none :=
  have h := C7_theorem "testkorpus" (some ["xml_export:pretty"]) (by decide)
  ⟨h.1, h.2.1⟩

/-- C8: `make_korp` with the enabled flag true and a non-empty modes list
returns an item whose URL is the `#?corpus=` form whenever a mode named
`default` occurs anywhere in the list, and otherwise the
`?mode=` form built from the first mode's name; every returned URL ends
in `#?corpus=` followed by the corpus id; and with the flag false it
returns null. -/
theorem C8_theorem (cid : String) (modes : List KorpMode) (sc : Option Bool)
    (so : Option String) (hne : modes ≠ []) :
    ((∃ m ∈ modes, m.name = some "default") →
      ∃ item, make_korp true cid modes sc so = Except.ok (some item) ∧
        item.url = KORP_URL ++ "/#?corpus=" ++ cid) ∧
    ((∀ m ∈ modes, m.name ≠ some "default") →
      ∃ item, make_korp true cid modes sc so = Except.ok (some item) ∧
        item.url = KORP_URL ++ "/?mode=" ++ pyStrOfNameOpt (modes.headD { name := none }).name
          ++ "#?corpus=" ++ cid) ∧
    (∀ item, make_korp true cid modes sc so = Except.ok (some item) →
      ∃ p, item.url = p ++ ("#?corpus=" ++ cid)) ∧
    make_korp false cid modes sc so = Except.ok none := by
  refine ⟨?_, ?_, ?_, rfl⟩
  · rintro ⟨m, hm, hname⟩
    have hfind : (modes.find? (fun m => m.name == some "default")).isSome := by
      rw [List.find?_isSome]
      exact ⟨m, hm, by simp [hname]⟩
    obtain ⟨m2, hm2⟩ := Option.isSome_iff_exists.mp hfind
    simp only [make_korp, if_true, hm2]
    exact ⟨_, rfl, rfl⟩
  · intro hall
    have hnone : modes.find? (fun m => m.name == some "default") = none := by
      rw [List.find?_eq_none]
      intro x hx
      simpa using hall x hx
    cases modes with
    | nil => exact absurd rfl hne
    | cons m0 rest =>
      simp only [make_korp, if_true, hnone, List.headD]
      exact ⟨_, rfl, rfl⟩
  · intro item hitem
    cases hm2 : modes.find? (fun m => m.name == some "default") with
    | some m2 =>
      simp only [make_korp, if_true, hm2, Except.ok.injEq, Option.some.injEq] at hitem
      refine ⟨KORP_URL ++ "/", ?_⟩
      rw [← hitem]
      simp [String.append_assoc]
      rfl
    | none =>
      cases modes with
      | nil => simp [make_korp, hm2] at hitem
      | cons m0 rest =>
        simp only [make_korp, if_true, hm2, Except.ok.injEq, Option.some.injEq] at hitem
        refine ⟨KORP_URL ++ "/?mode=" ++ pyStrOfNameOpt m0.name, ?_⟩
        rw [← hitem]
        simp [String.append_assoc]

/-- C8, witness: the theorem instantiated at a two-mode list where the
`default` mode is in second position, so the `#?corpus=` URL is chosen
regardless of position. -/
theorem C8_witness :
    ∃ item, make_korp true "testkorpus" [{ name := some "parallel" }, { name := some "default" }]
        none none = Except.ok (some item) ∧
      item.url = KORP_URL ++ "/#?corpus=" ++ "testkorpus" :=
  have h := C8_theorem "testkorpus" [{ name := some "parallel" }, { name := some "default" }]
    none none (by decide)
  h.1 ⟨{ name := some "default" }, by decide, rfl⟩

/-- C9: the annotation-type inference emits its blocks in the fixed order
segmentation, lemmatization, part-of-speech; the segmentation block
appears exactly when a token-like or sentence-like name matched and lists
its levels with `sentence` before `word`, each present exactly when its
category matched; the lemmatization and part-of-speech blocks appear
exactly when a baseform-like or POS-like name matched; every emitted
block records mode `automatic`, and a category with no match contributes
no block. -/
theorem C9_theorem (anns : List String) :
    (∀ b ∈ setAnnotationInfoBlocks anns, b.annotationMode = "automatic") ∧
    List.Sublist ((setAnnotationInfoBlocks anns).map (fun b => b.annotationType))
      ["segmentation", "lemmatization", "morphosyntacticAnnotation-posTagging"] ∧
    ((∃ b ∈ setAnnotationInfoBlocks anns, b.annotationType = "segmentation") ↔
      (autoMatch AUTO_TOKEN anns = true ∨ autoMatch AUTO_SENT anns = true)) ∧
    (∀ b ∈ setAnnotationInfoBlocks anns, b.annotationType = "segmentation" →
      b.segmentationLevels =
        (if autoMatch AUTO_SENT anns then ["sentence"] else []) ++
        (if autoMatch AUTO_TOKEN anns then ["word"] else [])) ∧
    ((∃ b ∈ setAnnotationInfoBlocks anns, b.annotationType = "lemmatization") ↔
      autoMatch AUTO_BASEFORM anns = true) ∧
    ((∃ b ∈ setAnnotationInfoBlocks anns,
        b.annotationType = "morphosyntacticAnnotation-posTagging") ↔
      autoMatch AUTO_POS anns = true) := by
  cases htok : autoMatch AUTO_TOKEN anns <;> cases hsent : autoMatch AUTO_SENT anns <;>
    cases hbase : autoMatch AUTO_BASEFORM anns <;> cases hpos : autoMatch AUTO_POS anns <;>
      simp [setAnnotationInfoBlocks, htok, hsent, hbase, hpos]

/-- C2: evaluation of the Aggregator at the failing input. A document
declaring a parent id never declared by an earlier abstract document
makes the `parents[parent_id]` lookup raise an uncaught KeyError that
aborts the whole batch — no error is logged and the remaining documents
are not processed — although the same remaining document alone is valid
and would be emitted. This contradicts the claim (and the spec), which
require only the offending document to be skipped with a logged error. -/
theorem C2_theorem :
    create_export_files "mymod" false knownMymod (PyVal.vstr "sbx-default")
        [ghostParentDoc, utilityDoc "ok_doc"]
      = Except.error (PyErr.keyErr "ghost") ∧
    (create_export_files "mymod" false knownMymod (PyVal.vstr "sbx-default")
        [utilityDoc "ok_doc"]).map
        (fun st => (st.written.map (fun w => (w.dir, w.name)), st.errors))
      = Except.ok ([(ExportDir.utilityDir, "ok_doc")], []) :=
  ⟨rfl, rfl⟩

/-- C6: with document A abstract carrying license MIT and document B
declaring `parent: A`, id `b` and license GPL (and inheriting its valid
handler from A), the batch emits exactly one file, named `b`, whose
record carries license GPL — the child's keys override the inherited
parent's in the shallow merge — with neither an `abstract` nor a
`parent` key remaining, and no file for A is ever written. -/
theorem C6_theorem :
    (create_export_files "mymod" false knownMymod (PyVal.vstr "sbx-default")
        [abstractDocA, childDocB]).map
        (fun st =>
          (st.written.map (fun w => (w.dir, w.name, dictGet w.content "license",
            dictGet w.content "abstract", dictGet w.content "parent")),
           st.errors))
      = Except.ok ([(ExportDir.utilityDir, "b", some (PyVal.vstr "GPL"), none, none)], []) :=
  rfl

end SbxMeta
